import Mathlib

/-!
Verification of the HTTP adapter layer in com_server/api_builtins.py.

The file embeds the two resource handlers built by the Builtins class
(the nested classes _Sending and _Receiving), the argument parsers they
declare through flask_restful reqparse, and the endpoint registration
performed by Builtins.__init__ / Builtins._add_all.

The Connection collaborator and the RestApiHandler.add_endpoint method
live outside the excerpted file; where a property depends on them they
are modelled from the specification (their doc comments say so).

Handlers are embedded as pure functions from a parsed-request record and
a collaborator function to the pair (list of collaborator calls made,
HTTP result).  The list of calls records exactly the calls the handler
issues, in order, so properties such as "the collaborator is never
invoked" or "no retry is made" are statements about that list.
-/

namespace ComServer

/-! ### HTTP-level request and response shapes -/

/-- Error produced by reqparse argument validation: flask_restful aborts
the request with this HTTP status (always 400) and the declared help
message for the offending argument. -/
structure ParseError where
  status : Nat
  message : String
deriving DecidableEq, Repr

/-- Response of the /send endpoint: an HTTP status together with the
single "message" field of its JSON body. -/
structure SendResult where
  status : Nat
  message : String
deriving DecidableEq, Repr

/-- Body of a successful /receive response: the fields "message",
"timestamp" and "data" of the JSON object, where timestamp and data are
null when the collaborator reported no received record. -/
structure ReceiveResponse where
  message : String
  timestamp : Option Int
  data : Option String
deriving DecidableEq, Repr

/-- Result of a /receive request: 200 with a body, or a reqparse abort
with status 400 and a message. -/
inductive ReceiveOut where
  | ok (body : ReceiveResponse)
  | badRequest (message : String)
deriving DecidableEq, Repr

/-- HTTP status of a /receive result. -/
def ReceiveOut.status : ReceiveOut → Nat
  | .ok _ => 200
  | .badRequest _ => 400

/-! ### The /send request parser (class _Sending, lines 110-115)

The reqparse parser declares:
  data        required, action append  (list of strings)
  ending      default carriage return + newline
  concatenate default a single space
A raw request is modelled by the values it supplies for the three
declared argument names; action append turns the supplied values for
"data" into a list. -/

/-- Raw values a POST /send request supplies for the declared arguments;
none means the argument is absent from the request. -/
structure SendRequest where
  data : Option (List String)
  ending : Option String
  concatenate : Option String
deriving DecidableEq, Repr

/-- Arguments as returned by parser.parse_args in _Sending.post. -/
structure SendArgs where
  data : List String
  ending : String
  concatenate : String
deriving DecidableEq, Repr

/-- Help message declared for the required "data" argument; reqparse
uses it as the error message when "data" is absent. -/
def dataRequiredMsg : String := "Data the serial port should send; is required"

/-- Embedding of parser.parse_args for _Sending: "data" is required
(absence aborts with 400 and its help message), "ending" defaults to
carriage return + newline, "concatenate" defaults to a space. -/
def sendParseArgs (req : SendRequest) : Except ParseError SendArgs :=
  match req.data with
  | none => .error ⟨400, dataRequiredMsg⟩
  | some ds => .ok ⟨ds, req.ending.getD "\r\n", req.concatenate.getD " "⟩

/-! ### The collaborator call made by _Sending.post -/

/-- Record of one call to the collaborator: Connection.send is invoked
with the parsed fragments as positional arguments and ending and
concatenate as keyword arguments (line 121). -/
structure SendCall where
  data : List String
  ending : String
  concatenate : String
deriving DecidableEq, Repr

/-- Modelled from the spec: Connection.send is outside the excerpted
file.  Section 6 gives its interface send(*fragments, ending,
concatenate) -> bool and sections 4.2 and 8 state that the string sent
over the serial port equals the fragments joined by concatenate then
suffixed by ending.  This definition is that string. -/
def Connection.sentString (c : SendCall) : String :=
  String.intercalate c.concatenate c.data ++ c.ending

/-- Embedding of _Sending.post (lines 117-127): parse the arguments
(aborting on a validation error before any collaborator call), invoke
conn.send once with the parsed fragments, ending and concatenate, abort
with 502 "Failed to send" when it returns false, and answer 200 "OK"
when it returns true.  The first component lists the collaborator calls
made, in order. -/
def Sending.post (send : SendCall → Bool) (req : SendRequest) :
    List SendCall × SendResult :=
  match sendParseArgs req with
  | .error e => ([], ⟨e.status, e.message⟩)
  | .ok args =>
      let call : SendCall := ⟨args.data, args.ending, args.concatenate⟩
      let res := send call
      if res = false then
        ([call], ⟨502, "Failed to send"⟩)
      else
        ([call], ⟨200, "OK"⟩)

/-! ### The /receive request parser (class _Receiving, lines 164-167)

The reqparse parser declares:
  num_before  type int, default 0
  read_until  default None
  strip       type bool, default False
Raw HTTP values are strings; reqparse applies the declared type to the
supplied string, and uses the default without conversion when the
argument is absent. -/

/-- Raw values a POST /receive request supplies for the declared
arguments; none means the argument is absent from the request. -/
structure ReceiveRequest where
  num_before : Option String
  read_until : Option String
  strip : Option String
deriving DecidableEq, Repr

/-- Arguments as returned by parser.parse_args in _Receiving.post. -/
structure ReceiveArgs where
  num_before : Int
  read_until : Option String
  strip : Bool
deriving DecidableEq, Repr

/-- Coercion the parser applies to a supplied "strip" value: the
declared type is the Python builtin bool, and bool of a string is true
exactly when the string is non-empty. -/
def pyBool (s : String) : Bool := s ≠ ""

/-- Value of a decimal digit character, none for anything else. -/
def digitVal (c : Char) : Option Nat :=
  if c.isDigit then some (c.toNat - 48) else none

/-- Accumulating decimal reading of a character list; fails on the
first non-digit character. -/
def readDigits : List Char → Nat → Option Nat
  | [], acc => some acc
  | c :: cs, acc =>
      match digitVal c with
      | none => none
      | some d => readDigits cs (acc * 10 + d)

/-- Conversion the parser applies to a supplied "num_before" value: the
declared type is the Python builtin int, which accepts an optional
leading minus sign followed by decimal digits and fails on anything
else. -/
def pyInt (s : String) : Option Int :=
  match s.data with
  | [] => none
  | c :: cs =>
      if c = Char.ofNat 45 then
        match cs with
        | [] => none
        | _ :: _ => (readDigits cs 0).map fun n => -(n : Int)
      else (readDigits (c :: cs) 0).map fun n => (n : Int)

/-- Help message declared for the "num_before" argument. -/
def numBeforeHelpMsg : String := "Which receive data to return"

/-- Embedding of parser.parse_args for _Receiving: "num_before" is
converted with int (aborting with 400 when the conversion fails) and
defaults to 0, "read_until" has no declared type and defaults to None,
"strip" is coerced with bool and defaults to False. -/
def receiveParseArgs (req : ReceiveRequest) : Except ParseError ReceiveArgs :=
  match req.num_before with
  | none => .ok ⟨0, req.read_until, (req.strip.map pyBool).getD false⟩
  | some s =>
      match pyInt s with
      | none => .error ⟨400, numBeforeHelpMsg⟩
      | some n => .ok ⟨n, req.read_until, (req.strip.map pyBool).getD false⟩

/-! ### The collaborator calls made by _Receiving -/

/-- Record of one call to Connection.receive_str: each field holds the
keyword argument the handler explicitly passes, or none when the
handler leaves that argument to the collaborator defaults.  The GET
branch (line 170) passes nothing; the POST branch (line 181) passes all
three. -/
structure ReceiveStrCall where
  num_before : Option Int
  read_until : Option (Option String)
  strip : Option Bool
deriving DecidableEq, Repr

/-- Modelled from the spec: the Connection collaborator is outside the
excerpted file.  Per the glossary and section 3 it holds timestamped
strings captured from the serial stream; the history is kept here with
the most recent record first, so that offset 0 is the most recent
record and offset 1 the second most recent (section 4.3). -/
structure Connection where
  history : List (Int × String)
deriving DecidableEq, Repr

/-- Characters remaining after removing leading whitespace. -/
def dropLeadingWs : List Char → List Char
  | [] => []
  | c :: cs => if c.isWhitespace then dropLeadingWs cs else c :: cs

/-- Embedding of the Python str.strip method with no arguments: removes
whitespace and newline characters from both ends of the string and
nothing from its interior. -/
def pyStrip (s : String) : String :=
  ⟨(dropLeadingWs ((dropLeadingWs s.data).reverse)).reverse⟩

/-- Characters of the prefix ending right before the first occurrence
of the terminator, the whole list when the terminator does not occur. -/
def takeUntilChars (term : List Char) : List Char → List Char
  | [] => []
  | c :: cs =>
      if term.isPrefixOf (c :: cs) then []
      else c :: takeUntilChars term cs

/-- Prefix of s ending right before the first occurrence of the
terminator, excluding it; the whole string when the terminator does not
occur or is empty. -/
def takeUntil (s term : String) : String :=
  match term.data with
  | [] => s
  | _ :: _ => ⟨takeUntilChars term.data s.data⟩

/-- Modelled from the spec: processing Connection.receive_str applies to
the stored string.  With a terminator it returns the portion before the
terminator, excluding it (section 4.3); with the strip flag it removes
leading and trailing whitespace and newlines, never interior whitespace
(section 8). -/
def Connection.processStr (read_until : Option String) (strip : Bool)
    (s : String) : String :=
  let cut := match read_until with
    | none => s
    | some term => takeUntil s term
  if strip then pyStrip cut else cut

/-- Modelled from the spec: Connection.receive_str itself is outside the
excerpted file.  Section 6 gives its interface receive_str(num_before,
read_until, strip) -> (timestamp, string) | None; section 4.3 says the
offset from the most recent record defaults to 0, that the terminator
defaults to none meaning the whole buffered string, and that the GET
path, which passes no arguments at all, yields the most recent record
stripped of whitespace, fixing the collaborator default of strip as
enabled.  An out-of-range offset yields the absent-value sentinel. -/
def Connection.receive_str (conn : Connection) (call : ReceiveStrCall) :
    Option (Int × String) :=
  let nb := call.num_before.getD 0
  let ru := call.read_until.getD none
  let st := call.strip.getD true
  if nb < 0 then none
  else (conn.history.get? nb.toNat).map fun r =>
    (r.1, Connection.processStr ru st r.2)

/-- Body construction shared by the GET and POST branches of _Receiving
(lines 172-176 and 183-187): message OK, timestamp and data taken from
the tuple when the collaborator returned one and null otherwise. -/
def mkReceiveResponse (res : Option (Int × String)) : ReceiveResponse :=
  ⟨"OK", res.map Prod.fst, res.map Prod.snd⟩

/-- Embedding of _Receiving.get (lines 169-176): the request is ignored
(no parser is consulted), conn.receive_str is called once with no
arguments, and the response is always 200 with the shared body shape.
The first component lists the collaborator calls made. -/
def Receiving.get (receive_str : ReceiveStrCall → Option (Int × String))
    (_req : ReceiveRequest) : List ReceiveStrCall × ReceiveOut :=
  let call : ReceiveStrCall := ⟨none, none, none⟩
  ([call], .ok (mkReceiveResponse (receive_str call)))

/-- Embedding of _Receiving.post (lines 178-187): parse the arguments
(aborting on a validation error before any collaborator call), call
conn.receive_str once passing num_before, read_until and strip exactly
as parsed, and answer 200 with the shared body shape.  The first
component lists the collaborator calls made. -/
def Receiving.post (receive_str : ReceiveStrCall → Option (Int × String))
    (req : ReceiveRequest) : List ReceiveStrCall × ReceiveOut :=
  match receiveParseArgs req with
  | .error e => ([], .badRequest e.message)
  | .ok args =>
      let call : ReceiveStrCall :=
        ⟨some args.num_before, some args.read_until, some args.strip⟩
      ([call], .ok (mkReceiveResponse (receive_str call)))

/-! ### Endpoint registration (Builtins, lines 43-88)

Builtins.__init__ checks isinstance(handler.conn, Connection), raising a
TypeError when the check fails, stores the handler and then calls
_add_all, which attaches the /send and /receive endpoints (the other
documented endpoints appear only as comments).  The handler is embedded
as its connection object together with the ordered list of endpoints
attached so far; raising is embedded as an error value returned before
any endpoint is attached. -/

/-- Resource constructors the registration table can attach: the send
and receive methods of Builtins, which build the _Sending and
_Receiving resource classes. -/
inductive ResourceId where
  | sendRes
  | receiveRes
deriving DecidableEq, Repr

/-- Dynamically typed connection object held by a RestApiHandler: either
an actual Connection instance or some other Python object, carried here
with a describing tag. -/
inductive ConnObj where
  | conn (c : Connection)
  | notConn (tag : String)
deriving DecidableEq, Repr

/-- Embedding of isinstance(handler.conn, Connection) (line 63). -/
def ConnObj.isinstanceConnection : ConnObj → Bool
  | .conn _ => true
  | .notConn _ => false

/-- State of a RestApiHandler: its connection object and the ordered
list of (path, resource-constructor) pairs attached so far. -/
structure RestApiHandler where
  conn : ConnObj
  endpoints : List (String × ResourceId)
deriving DecidableEq, Repr

/-- Modelled from the spec: RestApiHandler.add_endpoint is outside the
excerpted file; per section 4.1 registration attaches each (path,
resource-constructor) pair to the underlying web handler, embedded here
as appending the pair to the handler state. -/
def RestApiHandler.add_endpoint (h : RestApiHandler) (path : String)
    (r : ResourceId) : RestApiHandler :=
  ⟨h.conn, h.endpoints ++ [(path, r)]⟩

/-- Embedding of Builtins._add_all (lines 71-88): attaches /send and
/receive; the blocks for /receive/all, /get, /send/get_first,
/get/wait, /send/get and /list_ports are empty comments and attach
nothing. -/
def Builtins.addAll (h : RestApiHandler) : RestApiHandler :=
  (h.add_endpoint ("/send") .sendRes).add_endpoint ("/receive") .receiveRes

/-- Message of the TypeError raised by Builtins.__init__ (line 64). -/
def connTypeErrorMsg : String :=
  "The connection object passed into the handler must be a Connection type"

/-- The Builtins object: it stores the handler it wraps (line 66). -/
structure Builtins where
  handler : RestApiHandler
deriving DecidableEq, Repr

/-- Embedding of Builtins.__init__ (lines 43-69): when handler.conn is
not a Connection instance a TypeError is raised before anything else
happens; otherwise the handler is stored and all endpoints are added.
The result pairs the raised error or constructed object with the
handler state after the call. -/
def Builtins.init (handler : RestApiHandler) :
    Except String Builtins × RestApiHandler :=
  if handler.conn.isinstanceConnection then
    let h := Builtins.addAll handler
    (.ok ⟨h⟩, h)
  else
    (.error connTypeErrorMsg, handler)

/-! ### Theorems about the /send endpoint -/

/-- C1: for every POST /send request that passes validation, the send
primitive is called exactly once (no retry at this layer); when it
returns false the response is 502 with message Failed to send and the
status is never 200, and when it returns true the response is 200 with
message OK. -/
theorem sending_post_status_matches_send_result (send : SendCall → Bool)
    (req : SendRequest) (args : SendArgs)
    (h : sendParseArgs req = .ok args) :
    (Sending.post send req).1 = [⟨args.data, args.ending, args.concatenate⟩] ∧
    (send ⟨args.data, args.ending, args.concatenate⟩ = false →
      (Sending.post send req).2 = ⟨502, "Failed to send"⟩ ∧
      (Sending.post send req).2.status ≠ 200) ∧
    (send ⟨args.data, args.ending, args.concatenate⟩ = true →
      (Sending.post send req).2 = ⟨200, "OK"⟩) := by
  cases hs : send ⟨args.data, args.ending, args.concatenate⟩ <;>
    simp [Sending.post, h, hs]

/-- C1 witness: a concrete valid request against a collaborator whose
send primitive fails. -/
theorem sending_post_status_matches_send_result_witness :
    (Sending.post (fun _ => false) ⟨some ["a"], none, none⟩).1 =
      [⟨["a"], "\r\n", " "⟩] ∧
    ((fun (_ : SendCall) => false) ⟨["a"], "\r\n", " "⟩ = false →
      (Sending.post (fun _ => false) ⟨some ["a"], none, none⟩).2 =
        ⟨502, "Failed to send"⟩ ∧
      (Sending.post (fun _ => false) ⟨some ["a"], none, none⟩).2.status ≠ 200) ∧
    ((fun (_ : SendCall) => false) ⟨["a"], "\r\n", " "⟩ = true →
      (Sending.post (fun _ => false) ⟨some ["a"], none, none⟩).2 = ⟨200, "OK"⟩) :=
  sending_post_status_matches_send_result (fun _ => false)
    ⟨some ["a"], none, none⟩ ⟨["a"], "\r\n", " "⟩ rfl

/-- C2 counterexample: on the valid request with fragments hello and
world, this layer forwards the fragment list itself to the send
primitive; it does not pass the joined-and-suffixed string, so the
joining is not performed at this layer. -/
theorem sending_layer_does_not_join_counterexample :
    (Sending.post (fun _ => true) ⟨some ["hello", "world"], none, none⟩).1 =
      [⟨["hello", "world"], "\r\n", " "⟩] ∧
    (Sending.post (fun _ => true) ⟨some ["hello", "world"], none, none⟩).1 ≠
      [⟨["hello world\r\n"], "\r\n", " "⟩] := by
  constructor
  · rfl
  · intro hcontra
    simp [Sending.post, sendParseArgs] at hcontra

/-- C2 amended: for every valid POST /send request this layer forwards
the parsed fragments together with the ending and concatenate values
unchanged to the send primitive in a single call; the collaborator, per
its specified behaviour, then sends the string equal to the fragments
joined by concatenate and suffixed by ending. -/
theorem sending_forwards_fragments_connection_joins (send : SendCall → Bool)
    (req : SendRequest) (args : SendArgs)
    (h : sendParseArgs req = .ok args) :
    (Sending.post send req).1 = [⟨args.data, args.ending, args.concatenate⟩] ∧
    Connection.sentString ⟨args.data, args.ending, args.concatenate⟩ =
      String.intercalate args.concatenate args.data ++ args.ending := by
  refine ⟨?_, rfl⟩
  cases hs : send ⟨args.data, args.ending, args.concatenate⟩ <;>
    simp [Sending.post, h, hs]

/-- C2 amended witness: concrete request with two fragments and the
default separator and ending. -/
theorem sending_forwards_fragments_connection_joins_witness :
    (Sending.post (fun _ => true) ⟨some ["hello", "world"], none, none⟩).1 =
      [⟨["hello", "world"], "\r\n", " "⟩] ∧
    Connection.sentString ⟨["hello", "world"], "\r\n", " "⟩ =
      String.intercalate (" ") ["hello", "world"] ++ "\r\n" :=
  sending_forwards_fragments_connection_joins (fun _ => true)
    ⟨some ["hello", "world"], none, none⟩ ⟨["hello", "world"], "\r\n", " "⟩ rfl

/-- C4: a POST /send request that omits the data field is rejected by
the parser with a 400 validation error carrying the declared help
message, and the send primitive is never invoked (the call list is
empty). -/
theorem sending_missing_data_rejected_before_send (send : SendCall → Bool)
    (req : SendRequest) (h : req.data = none) :
    sendParseArgs req = .error ⟨400, dataRequiredMsg⟩ ∧
    Sending.post send req = ([], ⟨400, dataRequiredMsg⟩) := by
  have hp : sendParseArgs req = .error ⟨400, dataRequiredMsg⟩ := by
    simp [sendParseArgs, h]
  exact ⟨hp, by simp [Sending.post, hp]⟩

/-- C4 witness: the request supplying no argument at all. -/
theorem sending_missing_data_rejected_before_send_witness :
    sendParseArgs ⟨none, none, none⟩ = .error ⟨400, dataRequiredMsg⟩ ∧
    Sending.post (fun _ => true) ⟨none, none, none⟩ =
      ([], ⟨400, dataRequiredMsg⟩) :=
  sending_missing_data_rejected_before_send (fun _ => true) ⟨none, none, none⟩ rfl

/-! ### Theorems about the /receive endpoint -/

/-- Inversion of the /receive argument parser: a successful parse fixes
every field of the returned arguments from the raw request. -/
theorem receiveParseArgs_ok_fields (req : ReceiveRequest) (args : ReceiveArgs)
    (h : receiveParseArgs req = .ok args) :
    args.read_until = req.read_until ∧
    args.strip = (req.strip.map pyBool).getD false ∧
    (req.num_before = none → args.num_before = 0) ∧
    (∀ s, req.num_before = some s → pyInt s = some args.num_before) := by
  obtain ⟨nb, ru, st⟩ := args
  cases hn : req.num_before with
  | none =>
      simp only [receiveParseArgs, hn, Except.ok.injEq,
        ReceiveArgs.mk.injEq] at h
      obtain ⟨h1, h2, h3⟩ := h
      simp [h1, h2, h3]
  | some s =>
      cases ht : pyInt s with
      | none =>
          simp only [receiveParseArgs, hn, ht] at h
          exact Except.noConfusion h
      | some n =>
          simp only [receiveParseArgs, hn, ht, Except.ok.injEq,
            ReceiveArgs.mk.injEq] at h
          obtain ⟨h1, h2, h3⟩ := h
          simp [h1, h2, h3, ht]

/-- C3: every GET /receive request is answered by calling the
collaborator exactly once with no arguments, so under the specified
collaborator defaults it obtains the most recent received record with
stripping enabled; the response is 200 with message OK and the
timestamp and data of that stripped record (null when absent), and the
output is independent of any request parameters. -/
theorem receiving_get_most_recent_stripped (conn : Connection)
    (r1 r2 : ReceiveRequest) :
    Receiving.get conn.receive_str r1 = Receiving.get conn.receive_str r2 ∧
    (Receiving.get conn.receive_str r1).1 = [⟨none, none, none⟩] ∧
    (Receiving.get conn.receive_str r1).2.status = 200 ∧
    (Receiving.get conn.receive_str r1).2 =
      .ok ⟨"OK", conn.history.head?.map Prod.fst,
        conn.history.head?.map fun r => pyStrip r.2⟩ := by
  obtain ⟨hist⟩ := conn
  refine ⟨rfl, rfl, rfl, ?_⟩
  cases hist <;>
    simp [Receiving.get, Connection.receive_str, mkReceiveResponse,
      Connection.processStr]

/-- C5: whenever the collaborator reports no received record, both the
GET and the POST branches of /receive still answer 200 with message OK
and null timestamp and data, never an error status. -/
theorem receiving_absent_record_maps_to_nulls
    (rs : ReceiveStrCall → Option (Int × String)) (req : ReceiveRequest)
    (args : ReceiveArgs) (hp : receiveParseArgs req = .ok args)
    (hg : rs ⟨none, none, none⟩ = none)
    (hq : rs ⟨some args.num_before, some args.read_until, some args.strip⟩ =
      none) :
    Receiving.get rs req = ([⟨none, none, none⟩], .ok ⟨"OK", none, none⟩) ∧
    (Receiving.get rs req).2.status = 200 ∧
    (Receiving.post rs req).2 = .ok ⟨"OK", none, none⟩ ∧
    (Receiving.post rs req).2.status = 200 := by
  refine ⟨?_, rfl, ?_, ?_⟩
  · simp [Receiving.get, hg, mkReceiveResponse]
  · simp [Receiving.post, hp, hq, mkReceiveResponse]
  · simp [Receiving.post, hp, hq, mkReceiveResponse, ReceiveOut.status]

/-- C5 witness: a collaborator with nothing received and the request
with no parameters. -/
theorem receiving_absent_record_maps_to_nulls_witness :
    Receiving.get (fun _ => none) ⟨none, none, none⟩ =
      ([⟨none, none, none⟩], .ok ⟨"OK", none, none⟩) ∧
    (Receiving.get (fun _ => none) ⟨none, none, none⟩).2.status = 200 ∧
    (Receiving.post (fun _ => none) ⟨none, none, none⟩).2 =
      .ok ⟨"OK", none, none⟩ ∧
    (Receiving.post (fun _ => none) ⟨none, none, none⟩).2.status = 200 :=
  receiving_absent_record_maps_to_nulls (fun _ => none) ⟨none, none, none⟩
    ⟨0, none, false⟩ rfl rfl rfl

/-- C6: the POST /receive parser yields num_before 0, read_until none
and strip false when the respective arguments are absent; the parsed
values are passed unchanged in the single collaborator call; and when
num_before is 1 the response is built from the second entry of the
receive history (the second most recent record), not from the most
recent one. -/
theorem receiving_post_defaults_and_passthrough (conn : Connection)
    (req : ReceiveRequest) (args : ReceiveArgs)
    (h : receiveParseArgs req = .ok args) :
    (req.num_before = none → args.num_before = 0) ∧
    (req.read_until = none → args.read_until = none) ∧
    (req.strip = none → args.strip = false) ∧
    (Receiving.post conn.receive_str req).1 =
      [⟨some args.num_before, some args.read_until, some args.strip⟩] ∧
    (args.num_before = 1 → ∀ a b t, conn.history = a :: b :: t →
      (Receiving.post conn.receive_str req).2 =
        .ok ⟨"OK", some b.1,
          some (Connection.processStr args.read_until args.strip b.2)⟩) := by
  obtain ⟨hru, hst, hnb, -⟩ := receiveParseArgs_ok_fields req args h
  refine ⟨hnb, ?_, ?_, ?_, ?_⟩
  · intro hr; rw [hru, hr]
  · intro hr; rw [hst, hr]; rfl
  · simp [Receiving.post, h]
  · intro h1 a b t hh
    simp [Receiving.post, h, Connection.receive_str, h1, hh,
      mkReceiveResponse]

/-- C6 witness: a request with num_before 1 against a history holding
two records answers with the older of the two. -/
theorem receiving_post_defaults_and_passthrough_witness :
    (Receiving.post (Connection.mk [(10, "second"), (5, "first")]).receive_str
        ⟨some ("1"), none, none⟩).2 =
      .ok ⟨"OK", some 5, some (Connection.processStr none false ("first"))⟩ :=
  (receiving_post_defaults_and_passthrough ⟨[(10, "second"), (5, "first")]⟩
    ⟨some ("1"), none, none⟩ ⟨1, none, false⟩ rfl).2.2.2.2 rfl
    (10, "second") (5, "first") [] rfl

/-- C10: a POST /receive request supplying any non-empty string for
strip (such as the string false) parses strip to true, and true is what
the collaborator call receives; an absent strip or the empty string
yields false. -/
theorem receiving_strip_truthy_string_coerces_true
    (rs : ReceiveStrCall → Option (Int × String)) (req : ReceiveRequest)
    (args : ReceiveArgs) (h : receiveParseArgs req = .ok args) :
    (∀ s, req.strip = some s → s ≠ "" → args.strip = true ∧
      (Receiving.post rs req).1 =
        [⟨some args.num_before, some args.read_until, some true⟩]) ∧
    (req.strip = none → args.strip = false) ∧
    (req.strip = some "" → args.strip = false) := by
  obtain ⟨-, hst, -, -⟩ := receiveParseArgs_ok_fields req args h
  refine ⟨?_, ?_, ?_⟩
  · intro s hs hne
    have ht : args.strip = true := by simp [hst, hs, pyBool, hne]
    exact ⟨ht, by simp [Receiving.post, h, ht]⟩
  · intro hs; rw [hst, hs]; rfl
  · intro hs; rw [hst, hs]; simp [pyBool]

/-- C10 witness: the string false supplied for strip reaches the
collaborator as true. -/
theorem receiving_strip_truthy_string_coerces_true_witness :
    (⟨0, none, true⟩ : ReceiveArgs).strip = true ∧
    (Receiving.post (fun _ => none) ⟨none, none, some ("false")⟩).1 =
      [⟨some 0, some none, some true⟩] :=
  (receiving_strip_truthy_string_coerces_true (fun _ => none)
    ⟨none, none, some ("false")⟩ ⟨0, none, true⟩ rfl).1 ("false") rfl
    (by decide)

/-! ### Theorems about construction and endpoint registration -/

/-- C7: constructing Builtins raises the TypeError at construction time
whenever the handler's connection object is not a Connection instance,
and succeeds (returning the object wrapping the endpoint-extended
handler) whenever it is one. -/
theorem builtins_init_type_check (h : RestApiHandler) :
    (h.conn.isinstanceConnection = false →
      (Builtins.init h).1 = .error connTypeErrorMsg) ∧
    (h.conn.isinstanceConnection = true →
      (Builtins.init h).1 = .ok ⟨Builtins.addAll h⟩) := by
  cases hc : h.conn.isinstanceConnection <;> simp [Builtins.init, hc]

/-- C7 witness: construction fails on a handler holding a non-Connection
object and succeeds on a handler holding a Connection. -/
theorem builtins_init_type_check_witness :
    (Builtins.init ⟨.notConn ("serial.Serial object"), []⟩).1 =
      .error connTypeErrorMsg ∧
    (Builtins.init ⟨.conn ⟨[]⟩, []⟩).1 =
      .ok ⟨Builtins.addAll ⟨.conn ⟨[]⟩, []⟩⟩ :=
  ⟨(builtins_init_type_check ⟨.notConn ("serial.Serial object"), []⟩).1 rfl,
   (builtins_init_type_check ⟨.conn ⟨[]⟩, []⟩).2 rfl⟩

/-- C8: on a handler that passes the type check, registration attaches
exactly the pairs for /send and /receive, in that order, to the
handler; none of the documented but unwired paths is among the attached
endpoints. -/
theorem builtins_registration_table_exact (h : RestApiHandler)
    (hc : h.conn.isinstanceConnection = true) :
    (Builtins.init h).2.endpoints =
      h.endpoints ++ [("/send", .sendRes), ("/receive", .receiveRes)] ∧
    ((Builtins.init h).2.endpoints.drop h.endpoints.length).map Prod.fst =
      ["/send", "/receive"] ∧
    ∀ p ∈ (["/receive/all", "/get", "/send/get_first", "/get/wait",
            "/send/get", "/list_ports"] : List String),
      p ∉ ((Builtins.init h).2.endpoints.drop h.endpoints.length).map
        Prod.fst := by
  have he : (Builtins.init h).2.endpoints =
      h.endpoints ++ [("/send", .sendRes), ("/receive", .receiveRes)] := by
    simp [Builtins.init, hc, Builtins.addAll, RestApiHandler.add_endpoint]
  refine ⟨he, ?_, ?_⟩
  · rw [he, List.drop_left]; rfl
  · intro p hp
    rw [he, List.drop_left]
    fin_cases hp <;> decide

/-- C8 witness: registration on a fresh handler with an empty endpoint
list. -/
theorem builtins_registration_table_exact_witness :
    (Builtins.init ⟨.conn ⟨[]⟩, []⟩).2.endpoints =
      ([] : List (String × ResourceId)) ++
        [("/send", .sendRes), ("/receive", .receiveRes)] ∧
    ((Builtins.init ⟨.conn ⟨[]⟩, []⟩).2.endpoints.drop
        ([] : List (String × ResourceId)).length).map Prod.fst =
      ["/send", "/receive"] ∧
    ∀ p ∈ (["/receive/all", "/get", "/send/get_first", "/get/wait",
            "/send/get", "/list_ports"] : List String),
      p ∉ ((Builtins.init ⟨.conn ⟨[]⟩, []⟩).2.endpoints.drop
        ([] : List (String × ResourceId)).length).map Prod.fst :=
  builtins_registration_table_exact ⟨.conn ⟨[]⟩, []⟩ rfl

/-- C9: when the type check rejects the connection object, the error is
raised before any endpoint is added, so the handler state after the
failed construction is exactly the handler passed in. -/
theorem builtins_init_failure_handler_unchanged (h : RestApiHandler)
    (hc : h.conn.isinstanceConnection = false) :
    (Builtins.init h).1 = .error connTypeErrorMsg ∧
    (Builtins.init h).2 = h := by
  simp [Builtins.init, hc]

/-- C9 witness: a failing construction on a handler that already holds
one endpoint leaves that endpoint list intact. -/
theorem builtins_init_failure_handler_unchanged_witness :
    (Builtins.init ⟨.notConn ("str object"), [(("/old"), .sendRes)]⟩).1 =
      .error connTypeErrorMsg ∧
    (Builtins.init ⟨.notConn ("str object"), [(("/old"), .sendRes)]⟩).2 =
      ⟨.notConn ("str object"), [(("/old"), .sendRes)]⟩ :=
  builtins_init_failure_handler_unchanged
    ⟨.notConn ("str object"), [(("/old"), .sendRes)]⟩ rfl

end ComServer
